import Mathlib

/-
Shallow embedding of the `WhisperTranscriber` controller from
src/src/index.ts (whisper-web-transcriber).

The class state (fields declared at lines 13-22 of index.ts) is embedded as
the structure `TState`; the public operations `initialize`, `loadModel`,
`startRecording`, `stopRecording`, `destroy` become pure functions
`TState → PResult × TState × List Event`, where `PResult` is the settled
outcome of the returned promise (or the thrown exception) and `List Event`
records, in program order, the externally observable calls the operation
makes (observer callbacks, engine/WASM calls, device acquisition, audio
context lifecycle).  JavaScript is single threaded with run-to-completion
semantics, so each operation is modelled as one atomic step; async seams
(bring-up outcome, engine instance creation, device acquisition) become
explicit boolean/Option parameters of the step.

Nullable object fields (`instance`, `mediaRecorder`, `audioContext`,
`audio`, `audio0`, `Module`, `initPromise`) are embedded as a falsy-capable
Nat (for `instance`, where both `null` and the numeric handle `0` are falsy
in the source) and `Bool`/`Option` fields for the rest.  Float32Array sample
buffers are embedded as `List Int` (sample values play no role in the
claims; only concatenation and length do).
-/

namespace WhisperWeb

/-- Configuration slice relevant to the controller operations: `sampleRate`
and `audioIntervalMs` from `WhisperConfig` (index.ts lines 1-10, defaults
resolved at lines 38-48). Observer callbacks are modelled as emitted
events rather than stored functions. -/
structure Config where
  sampleRate : Nat
  audioIntervalMs : Nat
deriving DecidableEq, Repr

/-- Options object passed to the `AudioContext` constructor at index.ts
lines 384-391. -/
structure AudioContextOpts where
  sampleRate : Nat
  channelCount : Nat
  echoCancellation : Bool
  autoGainControl : Bool
  noiseSuppression : Bool
deriving DecidableEq, Repr

/-- Constraint dictionary passed to `navigator.mediaDevices.getUserMedia`
at index.ts line 401.  The optional audio-processing fields exist in the
browser constraint schema; a field the source does not set is `none`. -/
structure MediaConstraints where
  audio : Bool
  video : Bool
  sampleRate : Option Nat
  channelCount : Option Nat
  echoCancellation : Option Bool
  autoGainControl : Option Bool
  noiseSuppression : Option Bool
deriving DecidableEq, Repr

/-- Settled outcome of a promise returned by an operation (or the
exception it throws synchronously). -/
inductive PResult where
  | ok : PResult
  | err (msg : String) : PResult
deriving DecidableEq, Repr

/-- Externally observable calls an operation makes, in program order. -/
inductive Event where
  | onStatus (s : String)
  | onTranscription (s : String)
  | bringUpRun
  | engineInitCall
  | engineSetStatus (s : String)
  | engineSetAudio (h : Nat) (buf : List Int)
  | getUserMedia (c : MediaConstraints)
  | newAudioContext (o : AudioContextOpts)
  | mediaRecorderStarted (intervalMs : Nat)
  | pollingStarted
  | mediaRecorderStopped
  | audioContextClosed
  | modelTransfer
deriving DecidableEq, Repr

/-- Mutable fields of the `WhisperTranscriber` instance (index.ts lines
13-22).  `instanceH` embeds `this.instance : any` where both `null` and a
zero handle are falsy: `0` means "no usable instance".  `moduleLoaded`
embeds `this.Module != null`, `mediaRecorder` embeds
`this.mediaRecorder != null`, `initPromise` holds the memoized settled
outcome of the bring-up promise. -/
structure TState where
  cfg : Config
  instanceH : Nat
  mediaRecorder : Bool
  audioContext : Option AudioContextOpts
  isRecording : Bool
  audio : Option (List Int)
  audio0 : Option (List Int)
  moduleLoaded : Bool
  modelLoaded : Bool
  initPromise : Option PResult
deriving DecidableEq, Repr

/-- Field initializers at index.ts lines 13-22: everything null / false. -/
def initialState (cfg : Config) : TState :=
  { cfg := cfg
    instanceH := 0
    mediaRecorder := false
    audioContext := none
    isRecording := false
    audio := none
    audio0 := none
    moduleLoaded := false
    modelLoaded := false
    initPromise := none }

/-- Options object built at index.ts lines 384-391. -/
def audioContextOptsOf (cfg : Config) : AudioContextOpts :=
  { sampleRate := cfg.sampleRate
    channelCount := 1
    echoCancellation := false
    autoGainControl := true
    noiseSuppression := true }

/-- Constraint dictionary at index.ts line 401:
`getUserMedia({ audio: true, video: false })` — no sample-rate, channel or
audio-processing constraints are set on the device request. -/
def getUserMediaRequest : MediaConstraints :=
  { audio := true
    video := false
    sampleRate := none
    channelCount := none
    echoCancellation := none
    autoGainControl := none
    noiseSuppression := none }

/-- Operation `initialize()` (index.ts lines 283-314).  If `initPromise` is
set it is returned as-is (lines 284-286); otherwise the bring-up body runs
(COI bootstrap, helpers, WASM runtime: one `Event.bringUpRun`), the promise
is stored before the body settles, and on success `this.Module` is set
(inside `loadWasmModule`) and the status callback fires
"Ready to load model" (line 306).  On failure the error is rethrown (line
309) and `initPromise` keeps the rejected promise — the source never clears
it.  `envFail = none` means the environment lets bring-up succeed;
`envFail = some m` means it fails with message `m`. -/
def initializeOp (envFail : Option String) (s : TState) :
    PResult × TState × List Event :=
  match s.initPromise with
  | some r => (r, s, [])
  | none =>
    match envFail with
    | none =>
      (PResult.ok,
       { s with moduleLoaded := true, initPromise := some PResult.ok },
       [Event.bringUpRun, Event.onStatus "Ready to load model"])
    | some m =>
      (PResult.err m,
       { s with initPromise := some (PResult.err m) },
       [Event.bringUpRun])

/-- Operation `loadModel()` (index.ts lines 316-360).  No-op when the model
is already loaded (lines 317-320); otherwise awaits `initialize()` (line
322, propagating its rejection), fires "Loading model...", invokes the
external `loadRemote` transfer (line 358, `Event.modelTransfer`), and on
byte delivery `storeFS` installs the file via `this.Module.FS_createDataFile`
(line 337), sets `modelLoaded` and fires "Model loaded successfully".  When
`this.Module` is null (as after `destroy()`, since the memoized `initialize`
does not re-run), the `FS_createDataFile` call at line 337 throws a
TypeError inside the transfer callback and the returned promise never
resolves with success; this outcome is embedded as an error result. -/
def loadModel (envFail : Option String) (s : TState) :
    PResult × TState × List Event :=
  if s.modelLoaded then (PResult.ok, s, [])
  else
    match initializeOp envFail s with
    | (PResult.err m, s1, ev1) => (PResult.err m, s1, ev1)
    | (PResult.ok, s1, ev1) =>
      if s1.moduleLoaded then
        (PResult.ok, { s1 with modelLoaded := true },
         ev1 ++ [Event.onStatus "Loading model...", Event.modelTransfer,
                 Event.onStatus "Model loaded successfully"])
      else
        (PResult.err "TypeError: Module is null", s1,
         ev1 ++ [Event.onStatus "Loading model...", Event.modelTransfer])

/-- Operation `startRecording()` (index.ts lines 362-465).  Checks in
source order: model-not-loaded throw (lines 363-365); already-recording
no-op (lines 367-370); lazy engine-instance creation via `Module.init`
(lines 373-381, `initOk = false` embeds `init` returning the falsy handle
0, which triggers the throw at line 378); `AudioContext` creation with the
options at lines 384-391; `set_status("")` (lines 393-394);
`isRecording = true` and "Recording..." (lines 395-396); then
`getUserMedia({audio: true, video: false})` (line 401).  On success the
MediaRecorder starts with the configured interval and transcription
polling starts (lines 402-459).  On device rejection the catch at lines
460-464 resets `isRecording`, fires "Error: " + message and rethrows —
leaving the freshly created audio context in place.  A null `this.Module`
with `modelLoaded` set would throw a TypeError at line 375/393; that state
is unreachable (see `inv_of_reachable`). -/
def startRecording (initOk : Bool) (deviceFail : Option String) (s : TState) :
    PResult × TState × List Event :=
  if s.modelLoaded = false then
    (PResult.err "Model not loaded. Call loadModel() first.", s, [])
  else if s.isRecording then
    (PResult.ok, s, [])
  else if s.moduleLoaded = false then
    (PResult.err "TypeError: Module is null", s, [])
  else
    let createEvents := if s.instanceH = 0 then [Event.engineInitCall] else []
    let inst := if s.instanceH = 0 then (if initOk then 1 else 0) else s.instanceH
    if inst = 0 then
      (PResult.err "Failed to initialize Whisper", { s with instanceH := 0 },
       createEvents)
    else
      let opts := audioContextOptsOf s.cfg
      let s2 := { s with instanceH := inst, audioContext := some opts,
                         isRecording := true }
      let evs := createEvents ++
        [Event.newAudioContext opts, Event.engineSetStatus "",
         Event.onStatus "Recording...", Event.getUserMedia getUserMediaRequest]
      match deviceFail with
      | none =>
        (PResult.ok, { s2 with mediaRecorder := true },
         evs ++ [Event.mediaRecorderStarted s.cfg.audioIntervalMs,
                 Event.pollingStarted])
      | some m =>
        (PResult.err m, { s2 with isRecording := false },
         evs ++ [Event.onStatus ("Error: " ++ m)])

/-- Operation `stopRecording()` (index.ts lines 483-506).  No-op when not
recording (lines 484-487).  Otherwise `set_status("paused")` via
`this.Module` (lines 489-490, a TypeError if `Module` were null — an
unreachable state, see `inv_of_reachable`), clears `isRecording`, `audio0`,
`audio` (lines 491-493), stops and nulls the MediaRecorder if present
(lines 495-498), closes and nulls the audio context if present (lines
500-503), and fires "Stopped" (line 505). -/
def stopRecording (s : TState) : PResult × TState × List Event :=
  if s.isRecording = false then (PResult.ok, s, [])
  else if s.moduleLoaded = false then
    (PResult.err "TypeError: Module is null", s, [])
  else
    (PResult.ok,
     { s with isRecording := false, audio0 := none, audio := none,
              mediaRecorder := false, audioContext := none },
     [Event.engineSetStatus "paused"]
       ++ (if s.mediaRecorder then [Event.mediaRecorderStopped] else [])
       ++ (if s.audioContext.isSome then [Event.audioContextClosed] else [])
       ++ [Event.onStatus "Stopped"])

/-- Operation `destroy()` (index.ts lines 508-513): runs `stopRecording()`
then nulls `instance` and `Module` and clears `modelLoaded`.  If
`stopRecording` threw, the error would propagate before the field clears
(unreachable, see `inv_of_reachable`). -/
def destroy (s : TState) : PResult × TState × List Event :=
  match stopRecording s with
  | (PResult.ok, s1, ev) =>
    (PResult.ok,
     { s1 with instanceH := 0, moduleLoaded := false, modelLoaded := false },
     ev)
  | (PResult.err m, s1, ev) => (PResult.err m, s1, ev)

/-- Completion of one `ondataavailable` → decode → offline-render chain
(index.ts lines 404-448) against the current controller state:
`decoded` is the channel-0 array rendered from the cumulative raw bytes of
the current MediaRecorder session.  The handler bails out when the audio
context is gone (line 413), stores the rendered samples in `this.audio`
(line 428), builds `audioAll` as `audio0 ++ audio` — with `audio0` used as
empty when null (lines 430-437) — and feeds it to the engine only when an
instance exists (lines 439-442). -/
def deliverChunk (decoded : List Int) (s : TState) : TState × List Event :=
  if s.audioContext.isNone then (s, [])
  else
    let audioAll :=
      match s.audio0 with
      | none => decoded
      | some a0 => a0 ++ decoded
    ({ s with audio := some decoded },
     if s.instanceH ≠ 0 then [Event.engineSetAudio s.instanceH audioAll]
     else [])

/-- One externally triggered step of the controller: a public API call or
the completion of a decode/render chain, with the outcomes of its async
seams as parameters. -/
inductive Action where
  | initializeA (envFail : Option String)
  | loadModelA (envFail : Option String)
  | startA (initOk : Bool) (deviceFail : Option String)
  | stopA
  | destroyA
  | chunkA (decoded : List Int)
deriving DecidableEq, Repr

def applyAction (a : Action) (s : TState) : PResult × TState × List Event :=
  match a with
  | Action.initializeA e => initializeOp e s
  | Action.loadModelA e => loadModel e s
  | Action.startA io df => startRecording io df s
  | Action.stopA => stopRecording s
  | Action.destroyA => destroy s
  | Action.chunkA d =>
    let (s1, ev) := deliverChunk d s
    (PResult.ok, s1, ev)

def stepState (a : Action) (s : TState) : TState := (applyAction a s).2.1

/-- States reachable from a freshly constructed controller by any sequence
of steps. -/
inductive Reachable : TState → Prop where
  | base (cfg : Config) : Reachable (initialState cfg)
  | step {s : TState} (a : Action) : Reachable s → Reachable (stepState a s)

/-- Run a sequence of actions, collecting each call's result and the
concatenated event trace. -/
def run (s : TState) : List Action → List PResult × TState × List Event
  | [] => ([], s, [])
  | a :: rest =>
    let (r, s1, ev1) := applyAction a s
    let (rs, s2, ev2) := run s1 rest
    (r :: rs, s2, ev1 ++ ev2)

def isBringUpRun : Event → Bool
  | Event.bringUpRun => true
  | _ => false

/-- Number of bring-up executions recorded in a trace. -/
def bringUpRuns (evs : List Event) : Nat := (evs.filter isBringUpRun).length

def isEngineInitCall : Event → Bool
  | Event.engineInitCall => true
  | _ => false

/-- Number of engine instance-creation calls recorded in a trace. -/
def engineInitCalls (evs : List Event) : Nat :=
  (evs.filter isEngineInitCall).length

/-- Poll period passed to `setInterval` at index.ts line 480. -/
def transcriptionPollIntervalMs : Nat := 100

/-- Transcription poll loop (index.ts lines 467-481): each tick observes
the current recording flag and the engine's pull result (`none` embeds a
null return of the cwrapped string accessor).  A tick with the flag false
clears the interval and stops; otherwise the pulled text is forwarded to
the on-transcription callback exactly when it is non-null and longer than
one character.  Returns the forwarded texts in order. -/
def pollLoop : List (Bool × Option String) → List String
  | [] => []
  | (recording, pulled) :: rest =>
    if recording = false then []
    else
      (match pulled with
       | some t => if t.length > 1 then [t] else []
       | none => []) ++ pollLoop rest

/-- Feeds produced by in-order completion of the `ondataavailable` handler
(index.ts lines 404-448) over one MediaRecorder session, starting from an
already accumulated `chunks` array: each delivered raw chunk is pushed
onto `chunks` (line 405), the blob of ALL accumulated chunks is decoded
and rendered (`decode`, lines 407-428), `audioAll` is built from `audio0`
and the rendered samples (lines 430-437), and it is fed to the engine when
an instance exists (lines 439-442). -/
def spanFeedsFrom (decode : List Nat → List Int) (inst : Nat)
    (audio0 : Option (List Int)) :
    List (List Nat) → List (List Nat) → List (List Int)
  | _, [] => []
  | chunks, c :: rest =>
    let chunks1 := chunks ++ [c]
    let rendered := decode chunks1.flatten
    let audioAll :=
      match audio0 with
      | none => rendered
      | some a0 => a0 ++ rendered
    (if inst ≠ 0 then [audioAll] else []) ++
      spanFeedsFrom decode inst audio0 chunks1 rest

/-- Feeds of a whole session: the `chunks` array starts empty (index.ts
line 398). -/
def spanFeeds (decode : List Nat → List Int) (inst : Nat)
    (audio0 : Option (List Int)) (segs : List (List Nat)) : List (List Int) :=
  spanFeedsFrom decode inst audio0 [] segs

/-- Test double for decode+render whose cumulative decoded lengths over
one-byte chunks are 1000, 1500, 2000, ... samples. -/
def demoDecode (raw : List Nat) : List Int :=
  List.replicate (500 + 500 * raw.length) 0

/-- Demo configuration (the source defaults: 16000 Hz, 5000 ms). -/
def demoCfg : Config := { sampleRate := 16000, audioIntervalMs := 5000 }

/-- A reachable state that is ready to record: fresh controller after a
successful `initialize()` and `loadModel()`. -/
def readyDemoState : TState :=
  stepState (Action.loadModelA none)
    (stepState (Action.initializeA none) (initialState demoCfg))

theorem readyDemoState_reachable : Reachable readyDemoState :=
  Reachable.step _ (Reachable.step _ (Reachable.base demoCfg))

/-- A reachable state in which a recording is in progress. -/
def recDemoState : TState :=
  stepState (Action.startA true none) readyDemoState

theorem recDemoState_reachable : Reachable recDemoState :=
  Reachable.step _ readyDemoState_reachable

example : readyDemoState.modelLoaded = true := by decide
example : readyDemoState.isRecording = false := by decide
example : recDemoState.isRecording = true := by decide

/-- Inductive invariant of the controller: the `audio0` field is never
assigned a non-null value anywhere in index.ts (only nulled at line 492),
`modelLoaded` is only set while `this.Module` is alive (line 339 inside
`storeFS`), and a live recording implies a loaded model, a live
MediaRecorder and an open audio context. -/
def Inv (s : TState) : Prop :=
  s.audio0 = none ∧
  (s.modelLoaded = true → s.moduleLoaded = true) ∧
  (s.isRecording = true →
    s.modelLoaded = true ∧ s.mediaRecorder = true ∧ s.audioContext.isSome = true)

theorem inv_initial (cfg : Config) : Inv (initialState cfg) := by
  simp [Inv, initialState]

theorem inv_step (a : Action) (s : TState) (h : Inv s) : Inv (stepState a s) := by
  obtain ⟨h0, h1, h2⟩ := h
  cases a with
  | initializeA e =>
    cases hp : s.initPromise <;> cases e <;>
      simp_all [stepState, applyAction, initializeOp, Inv]
  | loadModelA e =>
    cases hml : s.modelLoaded with
    | true => simp_all [stepState, applyAction, loadModel, Inv]
    | false =>
      cases hp : s.initPromise with
      | some r =>
        cases r <;> cases hm : s.moduleLoaded <;>
          simp_all [stepState, applyAction, loadModel, initializeOp, Inv]
      | none =>
        cases e <;>
          simp_all [stepState, applyAction, loadModel, initializeOp, Inv]
  | startA io df =>
    simp only [stepState, applyAction, startRecording]
    (repeat' split) <;> simp_all [Inv]
  | stopA =>
    simp only [stepState, applyAction, stopRecording]
    (repeat' split) <;> simp_all [Inv]
  | destroyA =>
    cases hr : s.isRecording <;> cases hm : s.moduleLoaded <;>
      simp_all [stepState, applyAction, destroy, stopRecording, Inv]
  | chunkA d =>
    simp only [stepState, applyAction, deliverChunk]
    (repeat' split) <;> simp_all [Inv]

theorem inv_of_reachable {s : TState} (h : Reachable s) : Inv s := by
  induction h with
  | base cfg => exact inv_initial cfg
  | step a _ ih => exact inv_step a _ ih

/-- Once the memoized promise is set, `initialize()` returns it without
touching the state or running anything (index.ts lines 284-286). -/
theorem initializeOp_memo {s : TState} {r : PResult} (h : s.initPromise = some r)
    (e : Option String) : initializeOp e s = (r, s, []) := by
  simp [initializeOp, h]

/-- First `initialize()` call on a fresh memo, successful environment. -/
theorem initializeOp_fresh_ok {s : TState} (h : s.initPromise = none) :
    initializeOp none s =
      (PResult.ok,
       { s with moduleLoaded := true, initPromise := some PResult.ok },
       [Event.bringUpRun, Event.onStatus "Ready to load model"]) := by
  simp [initializeOp, h]

/-- First `initialize()` call on a fresh memo, failing environment: the
rejected promise is stored and never cleared. -/
theorem initializeOp_fresh_err (m : String) {s : TState}
    (h : s.initPromise = none) :
    initializeOp (some m) s =
      (PResult.err m, { s with initPromise := some (PResult.err m) },
       [Event.bringUpRun]) := by
  simp [initializeOp, h]

/-- A whole sequence of `initialize()` calls against a set memo: every
caller gets the stored result, no state change, no events. -/
theorem run_initialize_memo (envs : List (Option String)) {s : TState}
    {r : PResult} (h : s.initPromise = some r) :
    run s (envs.map Action.initializeA) =
      (List.replicate envs.length r, s, []) := by
  induction envs with
  | nil => simp [run]
  | cons e rest ih =>
    simp [run, applyAction, initializeOp_memo h e, ih, List.replicate_succ]

theorem engineInitCalls_append (xs ys : List Event) :
    engineInitCalls (xs ++ ys) = engineInitCalls xs + engineInitCalls ys := by
  simp [engineInitCalls, List.filter_append]

theorem engineInitCalls_initializeOp (e : Option String) (s : TState) :
    engineInitCalls (initializeOp e s).2.2 = 0 := by
  cases hp : s.initPromise <;> cases e <;>
    simp [initializeOp, hp, engineInitCalls, isEngineInitCall]

/-- Outcome of `destroy()` from any reachable state: it succeeds, clears
the engine handle, the runtime reference and the model flag, ends not
recording, and keeps the memoized bring-up promise. -/
theorem destroy_state {s : TState} (h : Reachable s) :
    (destroy s).1 = PResult.ok ∧
    (destroy s).2.1.modelLoaded = false ∧
    (destroy s).2.1.moduleLoaded = false ∧
    (destroy s).2.1.instanceH = 0 ∧
    (destroy s).2.1.isRecording = false ∧
    (destroy s).2.1.initPromise = s.initPromise := by
  obtain ⟨h0, h1, h2⟩ := inv_of_reachable h
  cases hr : s.isRecording with
  | false => simp [destroy, stopRecording, hr]
  | true =>
    obtain ⟨hml, hmr, hac⟩ := h2 hr
    have hmod := h1 hml
    simp [destroy, stopRecording, hr, hmod]

/-- A controller whose bring-up memo is settled but whose runtime
reference is null can never regain a loaded model: `initialize()` returns
the memo without re-running, `loadModel()` fails at the null runtime, and
`startRecording()` keeps failing its model precondition. -/
theorem no_restore_after_bringup {t : TState} {r : PResult}
    (hml : t.modelLoaded = false) (hmod : t.moduleLoaded = false)
    (hp : t.initPromise = some r) (e1 e2 : Option String) (io : Bool)
    (df : Option String) :
    (run t [Action.initializeA e1, Action.loadModelA e2,
            Action.startA io df]).2.1 = t ∧
    (run t [Action.initializeA e1, Action.loadModelA e2,
            Action.startA io df]).1.getLast? =
      some (PResult.err "Model not loaded. Call loadModel() first.") := by
  cases r <;>
    simp [run, applyAction, loadModel, initializeOp, startRecording,
      hml, hmod, hp]

/-- Feed produced for the k-th segment of a session with a live engine
instance and a null `audio0`: exactly the decode of the cumulative raw
bytes accumulated so far, starting from any already accumulated `chunks`
array. -/
theorem spanFeedsFrom_getElem (decode : List Nat → List Int) {inst : Nat}
    (hinst : inst ≠ 0) (segs : List (List Nat)) :
    ∀ (chunks : List (List Nat)) (k : Nat), k < segs.length →
      (spanFeedsFrom decode inst none chunks segs)[k]? =
        some (decode (chunks ++ segs.take (k + 1)).flatten) := by
  induction segs with
  | nil =>
    intro chunks k hk
    simp at hk
  | cons c rest ih =>
    intro chunks k hk
    cases k with
    | zero => simp [spanFeedsFrom, hinst]
    | succ k =>
      have hk' : k < rest.length := by simpa using hk
      simp only [spanFeedsFrom, hinst, ne_eq, not_false_eq_true, if_true,
        List.singleton_append, List.getElem?_cons_succ, List.take_succ_cons]
      rw [ih (chunks ++ [c]) k hk']
      congr 2
      simp [List.append_assoc]

/-- C1: in a recording span whose segments are delivered and processed in
order, the buffer fed to the engine after the k-th segment is exactly the
decode of the cumulative raw bytes of that segment, so its length is the
cumulative decoded length — not the sum of the per-segment decoded
lengths.  The `audio0` field of any reachable controller state is null,
so no previous-span samples are ever prepended. -/
theorem C1_feed_is_cumulative_decode (decode : List Nat → List Int)
    (inst : Nat) (segs : List (List Nat)) (k : Nat) (s : TState)
    (hreach : Reachable s) (hinst : inst ≠ 0) (hk : k < segs.length) :
    s.audio0 = none ∧
    (spanFeeds decode inst s.audio0 segs)[k]? =
      some (decode ((segs.take (k + 1)).flatten)) ∧
    ((spanFeeds decode inst s.audio0 segs)[k]?).map List.length =
      some (decode ((segs.take (k + 1)).flatten)).length := by
  have h0 := (inv_of_reachable hreach).1
  have key : (spanFeeds decode inst s.audio0 segs)[k]? =
      some (decode ((segs.take (k + 1)).flatten)) := by
    rw [h0, spanFeeds, spanFeedsFrom_getElem decode hinst segs [] k hk]
    simp
  exact ⟨h0, key, by rw [key]; rfl⟩

set_option maxRecDepth 8000 in
/-- C1 witness: with a decode double whose cumulative decoded lengths over
the three delivered segments are 1000, 1500 and 2000 samples, the third
feed has length 2000 (not 4500). -/
theorem C1_feed_is_cumulative_decode_witness :
    (initialState demoCfg).audio0 = none ∧
    (spanFeeds demoDecode 1 (initialState demoCfg).audio0
        [[0], [1], [2]])[2]? =
      some (demoDecode ((([[0], [1], [2]] : List (List Nat)).take 3).flatten)) ∧
    ((spanFeeds demoDecode 1 (initialState demoCfg).audio0
        [[0], [1], [2]])[2]?).map List.length =
      some (demoDecode ((([[0], [1], [2]] :
        List (List Nat)).take 3).flatten)).length ∧
    (demoDecode ((([[0], [1], [2]] : List (List Nat)).take 3).flatten)).length
      = 2000 := by
  obtain ⟨a, b, c⟩ :=
    C1_feed_is_cumulative_decode demoDecode 1 [[0], [1], [2]] 2
      (initialState demoCfg) (Reachable.base demoCfg) (by decide) (by decide)
  exact ⟨a, b, c, by simp [demoDecode]⟩

/-- C2: however many times `initialize()` is called, the bring-up sequence
runs exactly once and every caller receives the one shared result (the
memo is assigned synchronously before the first suspension point, so
overlapping calls behave like this sequential model under run-to-completion
scheduling). -/
theorem C2_initialize_memoized (e : Option String)
    (envs : List (Option String)) (s : TState) (h : s.initPromise = none) :
    bringUpRuns (run s ((e :: envs).map Action.initializeA)).2.2 = 1 ∧
    (run s ((e :: envs).map Action.initializeA)).1 =
      List.replicate (envs.length + 1) (initializeOp e s).1 := by
  cases e with
  | none =>
    simp only [List.map_cons, run, applyAction, initializeOp_fresh_ok h]
    rw [run_initialize_memo envs (r := PResult.ok) (by simp)]
    simp [bringUpRuns, isBringUpRun, List.replicate_succ,
      initializeOp_fresh_ok h]
  | some m =>
    simp only [List.map_cons, run, applyAction, initializeOp_fresh_err m h]
    rw [run_initialize_memo envs (r := PResult.err m) (by simp)]
    simp [bringUpRuns, isBringUpRun, List.replicate_succ,
      initializeOp_fresh_err m h]

/-- C2 witness: three calls (success environment, then two more with a
broken environment) on a fresh controller: one bring-up run, all three
callers see the shared successful result. -/
theorem C2_initialize_memoized_witness :
    bringUpRuns (run (initialState demoCfg)
      (([none, some "boom", none] : List (Option String)).map
        Action.initializeA)).2.2 = 1 ∧
    (run (initialState demoCfg)
      (([none, some "boom", none] : List (Option String)).map
        Action.initializeA)).1 =
      List.replicate ([some "boom", none].length + 1)
        (initializeOp none (initialState demoCfg)).1 :=
  C2_initialize_memoized none [some "boom", none] (initialState demoCfg) rfl

/-- C3 counterexample: on a fresh controller the first `initialize()`
fails ("Failed to load WASM module" environment); a second call in a now
corrected environment still receives the same memoized failure, runs no
second bring-up, and the rejected promise stays stored — refuting the
claim that the state is left so a later `initialize()` can re-run bring-up
and succeed. -/
theorem C3_counterexample :
    (run (initialState demoCfg)
      [Action.initializeA (some "Failed to load WASM module"),
       Action.initializeA none]).1 =
      [PResult.err "Failed to load WASM module",
       PResult.err "Failed to load WASM module"] ∧
    bringUpRuns (run (initialState demoCfg)
      [Action.initializeA (some "Failed to load WASM module"),
       Action.initializeA none]).2.2 = 1 ∧
    (run (initialState demoCfg)
      [Action.initializeA (some "Failed to load WASM module"),
       Action.initializeA none]).2.1.initPromise =
      some (PResult.err "Failed to load WASM module") := by decide

/-- C3 amended: if the bring-up run by `initialize()` fails, the returned
memoized result fails and the runtime reference stays unset, but the
rejected promise remains memoized: every later `initialize()` call on the
same controller returns the identical failure and bring-up never re-runs,
so no retry is possible. -/
theorem C3_failed_memo_is_permanent (m : String)
    (envs : List (Option String)) (s : TState) (h : s.initPromise = none) :
    (initializeOp (some m) s).1 = PResult.err m ∧
    (initializeOp (some m) s).2.1.moduleLoaded = s.moduleLoaded ∧
    (run (initializeOp (some m) s).2.1 (envs.map Action.initializeA)).1 =
      List.replicate envs.length (PResult.err m) ∧
    bringUpRuns
      (run (initializeOp (some m) s).2.1 (envs.map Action.initializeA)).2.2
      = 0 := by
  rw [initializeOp_fresh_err m h]
  rw [run_initialize_memo envs (r := PResult.err m) (by simp)]
  simp [bringUpRuns]

/-- C3 amended witness: a failed first call followed by two retries on a
fresh controller. -/
theorem C3_failed_memo_is_permanent_witness :
    (initializeOp (some "boom") (initialState demoCfg)).1 =
      PResult.err "boom" ∧
    (initializeOp (some "boom") (initialState demoCfg)).2.1.moduleLoaded =
      (initialState demoCfg).moduleLoaded ∧
    (run (initializeOp (some "boom") (initialState demoCfg)).2.1
      (([none, none] : List (Option String)).map Action.initializeA)).1 =
      List.replicate 2 (PResult.err "boom") ∧
    bringUpRuns
      (run (initializeOp (some "boom") (initialState demoCfg)).2.1
        (([none, none] : List (Option String)).map Action.initializeA)).2.2
      = 0 :=
  C3_failed_memo_is_permanent "boom" [none, none] (initialState demoCfg) rfl

/-- C4: `startRecording()` with no model loaded throws the
model-not-loaded error, leaves the state untouched and performs no
external call (no device acquisition, no engine instance creation, flag
still false); on any reachable state that is already recording it is a
no-op returning success. -/
theorem C4_startRecording_preconditions :
    (∀ (io : Bool) (df : Option String) (s : TState),
        s.modelLoaded = false →
        startRecording io df s =
          (PResult.err "Model not loaded. Call loadModel() first.", s, [])) ∧
    (∀ (io : Bool) (df : Option String) (s : TState), Reachable s →
        s.isRecording = true →
        startRecording io df s = (PResult.ok, s, [])) := by
  constructor
  · intro io df s h
    simp [startRecording, h]
  · intro io df s hreach hrec
    have hml : s.modelLoaded = true :=
      ((inv_of_reachable hreach).2.2 hrec).1
    simp [startRecording, hml, hrec]

/-- C4 witness: a fresh controller (model not loaded) and a reachable
recording state. -/
theorem C4_startRecording_preconditions_witness :
    startRecording true none (initialState demoCfg) =
      (PResult.err "Model not loaded. Call loadModel() first.",
       initialState demoCfg, []) ∧
    startRecording true none recDemoState = (PResult.ok, recDemoState, []) :=
  ⟨C4_startRecording_preconditions.1 true none (initialState demoCfg) rfl,
   C4_startRecording_preconditions.2 true none recDemoState
     recDemoState_reachable (by decide)⟩

/-- C5: over one controller lifetime the engine instance is created
exactly once, on the first successful `startRecording()`: the sequence
start → stop → start performs exactly one engine `init` call and ends with
the same live handle; once a handle exists no action ever issues another
`init` call; and no action other than `destroy()` releases or changes the
handle. -/
theorem C5_single_engine_instance :
    (∀ s : TState, s.modelLoaded = true → s.moduleLoaded = true →
        s.isRecording = false → s.instanceH = 0 →
        (run s [Action.startA true none, Action.stopA,
                Action.startA true none]).1 =
          [PResult.ok, PResult.ok, PResult.ok] ∧
        engineInitCalls (run s [Action.startA true none, Action.stopA,
                Action.startA true none]).2.2 = 1 ∧
        (run s [Action.startA true none, Action.stopA,
                Action.startA true none]).2.1.instanceH = 1) ∧
    (∀ (s : TState) (a : Action), s.instanceH ≠ 0 →
        engineInitCalls (applyAction a s).2.2 = 0) ∧
    (∀ (s : TState) (a : Action), a ≠ Action.destroyA → s.instanceH ≠ 0 →
        (stepState a s).instanceH = s.instanceH) := by
  refine ⟨?_, ?_, ?_⟩
  · intro s hml hmod hrec hinst
    simp [run, applyAction, startRecording, stopRecording, hml, hmod, hrec,
      hinst, engineInitCalls, isEngineInitCall]
  · intro s a h
    cases a with
    | initializeA e =>
      simpa [applyAction] using engineInitCalls_initializeOp e s
    | loadModelA e =>
      simp only [applyAction, loadModel]
      split
      · simp [engineInitCalls]
      · rcases hI : initializeOp e s with ⟨r, s1, ev1⟩
        have h1 : engineInitCalls ev1 = 0 := by
          have := engineInitCalls_initializeOp e s
          rw [hI] at this
          exact this
        cases r with
        | ok =>
          by_cases hm1 : s1.moduleLoaded = true <;>
            simp_all [engineInitCalls, isEngineInitCall, List.filter_append]
        | err m => exact h1
    | startA io df =>
      simp only [applyAction, startRecording]
      (repeat' split) <;>
        simp_all [engineInitCalls, isEngineInitCall]
    | stopA =>
      simp only [applyAction, stopRecording]
      (repeat' split) <;>
        simp_all [engineInitCalls, isEngineInitCall]
    | destroyA =>
      cases hr : s.isRecording <;> cases hm : s.moduleLoaded <;>
        simp_all [applyAction, destroy, stopRecording, engineInitCalls,
          isEngineInitCall]
    | chunkA d =>
      simp only [applyAction, deliverChunk]
      (repeat' split) <;>
        simp_all [engineInitCalls, isEngineInitCall]
  · intro s a hne h
    cases a with
    | initializeA e =>
      cases hp : s.initPromise <;> cases e <;>
        simp_all [stepState, applyAction, initializeOp]
    | loadModelA e =>
      simp only [stepState, applyAction, loadModel]
      split
      · rfl
      · rcases hI : initializeOp e s with ⟨r, s1, ev1⟩
        have h1 : s1.instanceH = s.instanceH := by
          have : (initializeOp e s).2.1.instanceH = s.instanceH := by
            cases hp : s.initPromise <;> cases e <;>
              simp [initializeOp, hp]
          rw [hI] at this
          exact this
        cases r with
        | ok =>
          by_cases hm1 : s1.moduleLoaded = true <;> simp [hm1, h1]
        | err m => exact h1
    | startA io df =>
      simp only [stepState, applyAction, startRecording]
      (repeat' split) <;> simp_all
    | stopA =>
      simp only [stepState, applyAction, stopRecording]
      (repeat' split) <;> simp_all
    | destroyA => exact absurd rfl hne
    | chunkA d =>
      simp only [stepState, applyAction, deliverChunk]
      (repeat' split) <;> simp_all

/-- C5 witness: from the concrete ready state, start → stop → start issues
exactly one engine `init` call; and from the concrete recording state
(handle 1) a further `startRecording` issues none and keeps the handle. -/
theorem C5_single_engine_instance_witness :
    ((run readyDemoState [Action.startA true none, Action.stopA,
        Action.startA true none]).1 =
      [PResult.ok, PResult.ok, PResult.ok] ∧
     engineInitCalls (run readyDemoState [Action.startA true none,
        Action.stopA, Action.startA true none]).2.2 = 1 ∧
     (run readyDemoState [Action.startA true none, Action.stopA,
        Action.startA true none]).2.1.instanceH = 1) ∧
    engineInitCalls
      (applyAction (Action.startA true none) recDemoState).2.2 = 0 ∧
    (stepState (Action.startA true none) recDemoState).instanceH =
      recDemoState.instanceH :=
  ⟨C5_single_engine_instance.1 readyDemoState (by decide) (by decide)
     (by decide) (by decide),
   C5_single_engine_instance.2.1 recDemoState (Action.startA true none)
     (by decide),
   C5_single_engine_instance.2.2 recDemoState (Action.startA true none)
     (by decide) (by decide)⟩

/-- C6: `stopRecording()` on a reachable recording state sets the engine
status to "paused", clears the recording flag, empties the sample
accumulator (`audio0`, `audio`), stops the capture device, closes the
audio context and fires status "Stopped" — in that order — while the
resulting state's engine handle and model flag equal the old ones; on a
non-recording state it is a no-op. -/
theorem C6_stopRecording_effects :
    (∀ s : TState, Reachable s → s.isRecording = true →
        stopRecording s =
          (PResult.ok,
           { s with isRecording := false, audio0 := none, audio := none,
                    mediaRecorder := false, audioContext := none },
           [Event.engineSetStatus "paused", Event.mediaRecorderStopped,
            Event.audioContextClosed, Event.onStatus "Stopped"]) ∧
        (stopRecording s).2.1.instanceH = s.instanceH ∧
        (stopRecording s).2.1.modelLoaded = s.modelLoaded) ∧
    (∀ s : TState, s.isRecording = false →
        stopRecording s = (PResult.ok, s, [])) := by
  constructor
  · intro s hreach hrec
    obtain ⟨h0, h1, h2⟩ := inv_of_reachable hreach
    obtain ⟨hml, hmr, hac⟩ := h2 hrec
    have hmod := h1 hml
    refine ⟨?_, ?_, ?_⟩ <;> simp [stopRecording, hrec, hmod, hmr, hac]
  · intro s hrec
    simp [stopRecording, hrec]

/-- C6 witness: the concrete recording state and the fresh controller. -/
theorem C6_stopRecording_effects_witness :
    (stopRecording recDemoState =
      (PResult.ok,
       { recDemoState with isRecording := false, audio0 := none,
                           audio := none, mediaRecorder := false,
                           audioContext := none },
       [Event.engineSetStatus "paused", Event.mediaRecorderStopped,
        Event.audioContextClosed, Event.onStatus "Stopped"]) ∧
     (stopRecording recDemoState).2.1.instanceH = recDemoState.instanceH ∧
     (stopRecording recDemoState).2.1.modelLoaded =
       recDemoState.modelLoaded) ∧
    stopRecording (initialState demoCfg) =
      (PResult.ok, initialState demoCfg, []) :=
  ⟨C6_stopRecording_effects.1 recDemoState recDemoState_reachable
     (by decide),
   C6_stopRecording_effects.2 (initialState demoCfg) rfl⟩

/-- C7 counterexample: run a full successful session (initialize, load,
record) and destroy from a fresh controller; then `initialize()` followed
by `loadModel()` followed by `startRecording()` does NOT restore the
ability to record — the memoized `initialize` skips bring-up, leaving the
runtime reference null, `loadModel` fails at the null runtime, and the
final `startRecording` still fails its model precondition — refuting the
claimed equivalence. -/
theorem C7_counterexample :
    (run (initialState demoCfg)
      [Action.initializeA none, Action.loadModelA none,
       Action.startA true none, Action.destroyA, Action.initializeA none,
       Action.loadModelA none, Action.startA true none]).1.getLast? =
      some (PResult.err "Model not loaded. Call loadModel() first.") ∧
    (run (initialState demoCfg)
      [Action.initializeA none, Action.loadModelA none,
       Action.startA true none, Action.destroyA, Action.initializeA none,
       Action.loadModelA none, Action.startA true none]).2.1.isRecording =
      false ∧
    (run (initialState demoCfg)
      [Action.initializeA none, Action.loadModelA none,
       Action.startA true none, Action.destroyA, Action.initializeA none,
       Action.loadModelA none, Action.startA true none]).2.1.modelLoaded =
      false := by decide

/-- C7 amended: `destroy()` never throws in any reachable state (also
right after `stopRecording()`), and afterwards the controller cannot
record: `startRecording()` fails its model precondition; moreover once
bring-up has run, `initialize()` → `loadModel()` → `startRecording()`
after `destroy()` does NOT restore recording, because the memoized
`initialize` result is returned without re-running bring-up while the
runtime reference stays null, so `loadModel` cannot succeed. -/
theorem C7_destroy_safe_and_terminal :
    (∀ s : TState, Reachable s → (destroy s).1 = PResult.ok) ∧
    (∀ s : TState, Reachable s →
        (destroy s).2.1.modelLoaded = false ∧
        (∀ (io : Bool) (df : Option String),
          startRecording io df (destroy s).2.1 =
            (PResult.err "Model not loaded. Call loadModel() first.",
             (destroy s).2.1, []))) ∧
    (∀ (s : TState) (r : PResult), Reachable s → s.initPromise = some r →
        ∀ (e1 e2 : Option String) (io : Bool) (df : Option String),
          (run (destroy s).2.1
            [Action.initializeA e1, Action.loadModelA e2,
             Action.startA io df]).2.1.isRecording = false ∧
          (run (destroy s).2.1
            [Action.initializeA e1, Action.loadModelA e2,
             Action.startA io df]).1.getLast? =
            some (PResult.err "Model not loaded. Call loadModel() first.")) := by
  refine ⟨?_, ?_, ?_⟩
  · intro s hreach
    exact (destroy_state hreach).1
  · intro s hreach
    obtain ⟨-, hml, -, -, -, -⟩ := destroy_state hreach
    refine ⟨hml, fun io df => ?_⟩
    simp [startRecording, hml]
  · intro s r hreach hp e1 e2 io df
    obtain ⟨-, hml, hmod, -, hrec, hpres⟩ := destroy_state hreach
    have hp' : (destroy s).2.1.initPromise = some r := by rw [hpres, hp]
    obtain ⟨hstate, hlast⟩ := no_restore_after_bringup hml hmod hp' e1 e2 io df
    exact ⟨by rw [hstate]; exact hrec, hlast⟩

/-- C7 amended witness: destroying the concrete recording state succeeds,
blocks recording, and the subsequent initialize → loadModel →
startRecording run fails to restore it. -/
theorem C7_destroy_safe_and_terminal_witness :
    (destroy recDemoState).1 = PResult.ok ∧
    ((destroy recDemoState).2.1.modelLoaded = false ∧
     startRecording true none (destroy recDemoState).2.1 =
       (PResult.err "Model not loaded. Call loadModel() first.",
        (destroy recDemoState).2.1, [])) ∧
    (run (destroy recDemoState).2.1
      [Action.initializeA none, Action.loadModelA none,
       Action.startA true none]).2.1.isRecording = false ∧
    (run (destroy recDemoState).2.1
      [Action.initializeA none, Action.loadModelA none,
       Action.startA true none]).1.getLast? =
      some (PResult.err "Model not loaded. Call loadModel() first.") :=
  ⟨C7_destroy_safe_and_terminal.1 recDemoState recDemoState_reachable,
   ⟨(C7_destroy_safe_and_terminal.2.1 recDemoState
       recDemoState_reachable).1,
    (C7_destroy_safe_and_terminal.2.1 recDemoState
       recDemoState_reachable).2 true none⟩,
   C7_destroy_safe_and_terminal.2.2 recDemoState PResult.ok
     recDemoState_reachable (by decide) none none true none⟩

/-- C8: the transcription poller runs on a fixed 100 ms period; while the
recording flag is true each tick forwards the pulled text verbatim if and
only if it is non-null and longer than one character, and the loop cancels
its own timer at the first tick observing a false flag (characterized by
the takeWhile/filterMap equation); with a mock engine returning "hello"
then "" exactly one callback fires, carrying "hello". -/
theorem C8_transcription_polling :
    transcriptionPollIntervalMs = 100 ∧
    (∀ ticks : List (Bool × Option String),
        pollLoop ticks =
          (ticks.takeWhile (fun t => t.1)).filterMap
            (fun t =>
              match t.2 with
              | some txt => if txt.length > 1 then some txt else none
              | none => none)) ∧
    pollLoop [(true, some "hello"), (true, some ""), (false, some "")] =
      ["hello"] := by
  refine ⟨rfl, ?_, by decide⟩
  intro ticks
  induction ticks with
  | nil => simp [pollLoop]
  | cons t rest ih =>
    obtain ⟨b, p⟩ := t
    cases b with
    | false => simp [pollLoop, List.takeWhile]
    | true =>
      cases p with
      | none => simpa [pollLoop, List.takeWhile] using ih
      | some txt =>
        by_cases hl : txt.length > 1 <;>
          simp [pollLoop, List.takeWhile, hl, ih]

/-- C9 counterexample: from the concrete ready state, a successful
`startRecording()` makes exactly one device-acquisition request, and that
request is `{audio: true, video: false}` — it carries no sample-rate,
channel-count, auto-gain, noise-suppression or echo-cancellation
configuration at all (in particular not the configured 16000 Hz rate),
refuting the claim that the capture device is acquired with that
configuration. -/
theorem C9_counterexample :
    (startRecording true none readyDemoState).1 = PResult.ok ∧
    (startRecording true none readyDemoState).2.2 =
      [Event.engineInitCall,
       Event.newAudioContext (audioContextOptsOf demoCfg),
       Event.engineSetStatus "", Event.onStatus "Recording...",
       Event.getUserMedia getUserMediaRequest,
       Event.mediaRecorderStarted 5000, Event.pollingStarted] ∧
    readyDemoState.cfg.sampleRate = 16000 ∧
    getUserMediaRequest.sampleRate = none ∧
    getUserMediaRequest.channelCount = none ∧
    getUserMediaRequest.autoGainControl = none ∧
    getUserMediaRequest.noiseSuppression = none ∧
    getUserMediaRequest.echoCancellation = none ∧
    getUserMediaRequest.sampleRate ≠ some 16000 := by decide

/-- C9 amended: every successful `startRecording()` passes the target
sample rate, one channel, auto-gain on, noise suppression on and echo
cancellation off as options of the audio context it creates, while the
capture device itself is acquired with a plain audio-only request that
carries none of those settings. -/
theorem C9_audio_configuration (io : Bool) (s : TState)
    (hml : s.modelLoaded = true) (hmod : s.moduleLoaded = true)
    (hrec : s.isRecording = false) (hio : io = true ∨ s.instanceH ≠ 0) :
    (startRecording io none s).1 = PResult.ok ∧
    Event.newAudioContext (audioContextOptsOf s.cfg) ∈
      (startRecording io none s).2.2 ∧
    (audioContextOptsOf s.cfg).sampleRate = s.cfg.sampleRate ∧
    (audioContextOptsOf s.cfg).channelCount = 1 ∧
    (audioContextOptsOf s.cfg).autoGainControl = true ∧
    (audioContextOptsOf s.cfg).noiseSuppression = true ∧
    (audioContextOptsOf s.cfg).echoCancellation = false ∧
    Event.getUserMedia getUserMediaRequest ∈
      (startRecording io none s).2.2 ∧
    getUserMediaRequest =
      { audio := true, video := false, sampleRate := none,
        channelCount := none, echoCancellation := none,
        autoGainControl := none, noiseSuppression := none } := by
  by_cases hin : s.instanceH = 0
  · have hio' : io = true := by
      rcases hio with h | h
      · exact h
      · exact absurd hin h
    subst hio'
    simp [startRecording, hml, hrec, hmod, hin, audioContextOptsOf,
      getUserMediaRequest]
  · simp [startRecording, hml, hrec, hmod, hin, audioContextOptsOf,
      getUserMediaRequest]

/-- C9 amended witness: the concrete ready state. -/
theorem C9_audio_configuration_witness :
    (startRecording true none readyDemoState).1 = PResult.ok ∧
    Event.newAudioContext (audioContextOptsOf readyDemoState.cfg) ∈
      (startRecording true none readyDemoState).2.2 ∧
    (audioContextOptsOf readyDemoState.cfg).sampleRate =
      readyDemoState.cfg.sampleRate ∧
    (audioContextOptsOf readyDemoState.cfg).channelCount = 1 ∧
    (audioContextOptsOf readyDemoState.cfg).autoGainControl = true ∧
    (audioContextOptsOf readyDemoState.cfg).noiseSuppression = true ∧
    (audioContextOptsOf readyDemoState.cfg).echoCancellation = false ∧
    Event.getUserMedia getUserMediaRequest ∈
      (startRecording true none readyDemoState).2.2 ∧
    getUserMediaRequest =
      { audio := true, video := false, sampleRate := none,
        channelCount := none, echoCancellation := none,
        autoGainControl := none, noiseSuppression := none } :=
  C9_audio_configuration true readyDemoState (by decide) (by decide)
    (by decide) (Or.inl rfl)

/-- C10: when device acquisition fails inside `startRecording()`, the
recording flag is reset, the error is reported through the status callback
and propagated, but the audio context created earlier in the same call is
neither closed nor cleared — the failed controller still holds an open
audio context, unlike a recording controller after `stopRecording()`,
which ends with its context closed and cleared. -/
theorem C10_device_failure_keeps_context (s : TState) (m : String)
    (hreach : Reachable s) (hml : s.modelLoaded = true)
    (hrec : s.isRecording = false) :
    (startRecording true (some m) s).1 = PResult.err m ∧
    (startRecording true (some m) s).2.1.isRecording = false ∧
    Event.onStatus ("Error: " ++ m) ∈ (startRecording true (some m) s).2.2 ∧
    (startRecording true (some m) s).2.1.audioContext =
      some (audioContextOptsOf s.cfg) ∧
    Event.audioContextClosed ∉ (startRecording true (some m) s).2.2 ∧
    (∀ t : TState, Reachable t → t.isRecording = true →
        (stopRecording t).2.1.audioContext = none ∧
        Event.audioContextClosed ∈ (stopRecording t).2.2) := by
  have hmod : s.moduleLoaded = true := (inv_of_reachable hreach).2.1 hml
  have main :
      (startRecording true (some m) s).1 = PResult.err m ∧
      (startRecording true (some m) s).2.1.isRecording = false ∧
      Event.onStatus ("Error: " ++ m) ∈
        (startRecording true (some m) s).2.2 ∧
      (startRecording true (some m) s).2.1.audioContext =
        some (audioContextOptsOf s.cfg) ∧
      Event.audioContextClosed ∉ (startRecording true (some m) s).2.2 := by
    by_cases hin : s.instanceH = 0 <;>
      simp [startRecording, hml, hrec, hmod, hin]
  refine ⟨main.1, main.2.1, main.2.2.1, main.2.2.2.1, main.2.2.2.2, ?_⟩
  intro t hreacht hrect
  obtain ⟨h0, h1, h2⟩ := inv_of_reachable hreacht
  obtain ⟨hmlt, hmrt, hact⟩ := h2 hrect
  have hmodt := h1 hmlt
  constructor <;> simp [stopRecording, hrect, hmodt, hmrt, hact]

/-- C10 witness: the concrete ready state with a permission-denied device
failure. -/
theorem C10_device_failure_keeps_context_witness :
    (startRecording true (some "Permission denied") readyDemoState).1 =
      PResult.err "Permission denied" ∧
    (startRecording true (some "Permission denied")
      readyDemoState).2.1.isRecording = false ∧
    Event.onStatus ("Error: " ++ "Permission denied") ∈
      (startRecording true (some "Permission denied") readyDemoState).2.2 ∧
    (startRecording true (some "Permission denied")
      readyDemoState).2.1.audioContext =
      some (audioContextOptsOf readyDemoState.cfg) ∧
    Event.audioContextClosed ∉
      (startRecording true (some "Permission denied") readyDemoState).2.2 ∧
    (∀ t : TState, Reachable t → t.isRecording = true →
        (stopRecording t).2.1.audioContext = none ∧
        Event.audioContextClosed ∈ (stopRecording t).2.2) :=
  C10_device_failure_keeps_context readyDemoState "Permission denied"
    readyDemoState_reachable (by decide) (by decide)

example :
    pollLoop [(true, some "hello"), (true, some ""), (false, some "")] =
      ["hello"] := by decide

set_option maxRecDepth 4000 in
example :
    (spanFeeds demoDecode 1 none [[0], [1], [2]]).map List.length =
      [1000, 1500, 2000] := by
  simp [spanFeeds, spanFeedsFrom, demoDecode]

end WhisperWeb
